import Mathlib

/-!
Verification of the gim-config configuration store (src/config.rs, src/directory.rs).

The Rust code is shallowly embedded: paths are lists of components, the
filesystem and home directory form an explicit environment threaded through
every operation, and `std::io::Result` together with the possibility of a
Rust panic is embedded as the `Outcome` type.  The `toml` crate's map type
(`toml::map::Map`, a `BTreeMap` ordered by key) is embedded as an
association list kept in sorted key order by `Table.insert`.
-/

namespace GimConfig

/-- A filesystem path, as its list of components (`PathBuf`). -/
abbrev Path := List String

/-- `PathBuf::join`: append one component. -/
def Path.join (p : Path) (s : String) : Path := p ++ [s]

/-- `Path::parent`: drop the final component; `None` for an empty path. -/
def Path.parent (p : Path) : Option Path :=
  if p = [] then none else some p.dropLast

/-- The subset of `std::io::ErrorKind` the program constructs. -/
inductive ErrorKind where
  | notFound
  | invalidData
  deriving DecidableEq

/-- The error messages the program formats, one constructor per
`format!`/literal message, carrying the formatted-in arguments. -/
inductive ErrMsg where
  | homeNotFound
  | configDirNotFound
  | sectionNotFound (s : String)
  | sectionNotATable (s : String)
  | keyNotFound (k s : String)
  | parseError
  | readError
  deriving DecidableEq

/-- `std::io::Error`: a kind plus a message. -/
structure IOErr where
  kind : ErrorKind
  msg : ErrMsg
  deriving DecidableEq

/-- The result of running a fallible Rust function that can also panic:
`ok` and `err` are the two sides of `std::io::Result`, `panicked` is a
Rust panic (e.g. from `.expect`). -/
inductive Outcome (α : Type) where
  | ok (a : α)
  | err (e : IOErr)
  | panicked (msg : String)
  deriving DecidableEq

/-- `toml::Value` restricted to the variants this program constructs and
inspects (integer, string, boolean, table).  A table is an association
list kept sorted by key, matching the `BTreeMap` backing `toml::map::Map`. -/
inductive Value where
  | integer (n : Int)
  | string (s : String)
  | boolean (b : Bool)
  | table (t : List (String × Value))

/-- A TOML table: the contents of `toml::map::Map<String, Value>`. -/
abbrev Table := List (String × Value)

mutual

/-- Structural equality on values (`PartialEq` for `toml::Value`). -/
def decEqValue : (a b : Value) → Decidable (a = b)
  | .integer a, .integer b =>
    match decEq a b with
    | isTrue h => isTrue (by rw [h])
    | isFalse h => isFalse (by intro hh; injection hh; contradiction)
  | .string a, .string b =>
    match decEq a b with
    | isTrue h => isTrue (by rw [h])
    | isFalse h => isFalse (by intro hh; injection hh; contradiction)
  | .boolean a, .boolean b =>
    match decEq a b with
    | isTrue h => isTrue (by rw [h])
    | isFalse h => isFalse (by intro hh; injection hh; contradiction)
  | .table a, .table b =>
    match decEqTable a b with
    | isTrue h => isTrue (by rw [h])
    | isFalse h => isFalse (by intro hh; injection hh; contradiction)
  | .integer _, .string _ => isFalse nofun
  | .integer _, .boolean _ => isFalse nofun
  | .integer _, .table _ => isFalse nofun
  | .string _, .integer _ => isFalse nofun
  | .string _, .boolean _ => isFalse nofun
  | .string _, .table _ => isFalse nofun
  | .boolean _, .integer _ => isFalse nofun
  | .boolean _, .string _ => isFalse nofun
  | .boolean _, .table _ => isFalse nofun
  | .table _, .integer _ => isFalse nofun
  | .table _, .string _ => isFalse nofun
  | .table _, .boolean _ => isFalse nofun

/-- Structural equality on tables (`PartialEq` for `toml::map::Map`). -/
def decEqTable : (a b : List (String × Value)) → Decidable (a = b)
  | [], [] => isTrue rfl
  | [], _ :: _ => isFalse nofun
  | _ :: _, [] => isFalse nofun
  | (k1, v1) :: r1, (k2, v2) :: r2 =>
    match decEq k1 k2 with
    | isFalse hk =>
      isFalse (by intro hh; injection hh with h1 h2; injection h1; contradiction)
    | isTrue hk =>
      match decEqValue v1 v2 with
      | isFalse hv =>
        isFalse (by intro hh; injection hh with h1 h2; injection h1; contradiction)
      | isTrue hv =>
        match decEqTable r1 r2 with
        | isTrue hr => isTrue (by rw [hk, hv, hr])
        | isFalse hr => isFalse (by intro hh; injection hh; contradiction)

end

instance : DecidableEq Value := decEqValue

/-- `Map::get`: first binding of the key. -/
def Table.get (t : Table) (k : String) : Option Value :=
  match t with
  | [] => none
  | (k0, v0) :: rest => if k = k0 then some v0 else Table.get rest k

/-- Lexicographic strict order on character lists, by code point: the
order `Ord for String` uses in Rust (byte order coincides with code-point
order on the ASCII keys this program uses). -/
def lexLt : List Char → List Char → Bool
  | [], [] => false
  | [], _ :: _ => true
  | _ :: _, [] => false
  | c :: cs, d :: ds =>
    if c.toNat < d.toNat then true
    else if d.toNat < c.toNat then false
    else lexLt cs ds

/-- The `String` order underlying the `BTreeMap` of `toml::map::Map`. -/
def strLt (a b : String) : Bool := lexLt a.data b.data

/-- `Map::insert` on the `BTreeMap`-backed map: replace an existing
binding in place, otherwise insert at the sorted position. -/
def Table.insert (t : Table) (k : String) (v : Value) : Table :=
  match t with
  | [] => [(k, v)]
  | (k0, v0) :: rest =>
    if k = k0 then (k, v) :: rest
    else if strLt k k0 then (k, v) :: (k0, v0) :: rest
    else (k0, v0) :: Table.insert rest k v

/-- `toml::Value::get` with a string index: table lookup, `None` on any
non-table value. -/
def Value.get (v : Value) (k : String) : Option Value :=
  match v with
  | .table t => Table.get t k
  | _ => none

/-- `toml::Value::as_table`. -/
def Value.as_table (v : Value) : Option Table :=
  match v with
  | .table t => some t
  | _ => none

/-- Two-level lookup `document[sec][key]` through `Value.get`. -/
def lookup2 (config : Value) (sec k : String) : Option Value :=
  match config.get sec with
  | none => none
  | some sv => sv.get k

/-- Modelled from the spec: the structured-text codec (the `toml` crate,
an external collaborator per §1/§6) is a black box: `good v` is the
serialized form of document `v` (parse recovers `v` exactly), `bad s` is
file content that is not valid structured text (parse fails), which per
the edge-case policy of §4.2 includes the empty file (`bad ""`). -/
inductive Content where
  | good (v : Value)
  | bad (s : String)
  deriving DecidableEq

/-- The host environment: the home directory reported by `dirs::home_dir()`
and the filesystem, a partial map from paths to file contents. -/
structure Env where
  home : Option Path
  files : Path → Option Content

/-- `fs::write` / `File::create` + `write_all`: overwrite one file. -/
def Env.write (env : Env) (p : Path) (c : Content) : Env :=
  { env with files := fun q => if q = p then some c else env.files q }

/-- `config_dir` (src/directory.rs:13-21): `<home>/.config/gim`, or a
`NotFound` error when `dirs::home_dir()` returns `None`. -/
def config_dir (env : Env) : Except IOErr Path :=
  match env.home with
  | none => .error ⟨.notFound, .homeNotFound⟩
  | some h => .ok ((h.join ".config").join "gim")

/-- `get_config_file` (src/config.rs:17-21): the config directory joined
with `config.toml`; propagates the error. -/
def get_config_file (env : Env) : Except IOErr Path :=
  match config_dir env with
  | .error e => .error e
  | .ok d => .ok (d.join "config.toml")

/-- The `update` table built at src/config.rs:56-63, by the code's
insertion sequence. -/
def update_table : Table :=
  Table.insert
    (Table.insert
      (Table.insert
        (Table.insert [] "tried" (.integer 0))
        "max_try" (.integer 5))
      "last_try_day" (.string "2000-01-01"))
    "try_interval_days" (.integer 30)

/-- The `ai` table built at src/config.rs:65-69. -/
def ai_table : Table :=
  Table.insert
    (Table.insert
      (Table.insert
        (Table.insert [] "model" (.string ""))
        "apikey" (.string ""))
      "url" (.string ""))
    "language" (.string "English")

/-- The default document built at src/config.rs:71-73. -/
def default_content : Table :=
  Table.insert
    (Table.insert [] "update" (.table update_table))
    "ai" (.table ai_table)

/-- Lines 82-85 of src/config.rs: read the file's contents and parse them.
Reading a missing file surfaces the host's I/O error; parsing invalid
content fails with `InvalidData` (the mapped `toml::de::Error`). -/
def readAndParse (p : Path) (env : Env) : Outcome Value × Env :=
  match env.files p with
  | none => (.err ⟨.notFound, .readError⟩, env)
  | some (.bad _) => (.err ⟨.invalidData, .parseError⟩, env)
  | some (.good v) => (.ok v, env)

/-- `get_config_into_toml` (src/config.rs:45-86), the `load` operation.
The `.expect` on line 46 is embedded as a panic outcome; the `log_dir`
print (lines 79-81) touches no modelled state.  Directory creation
(line 49) and serialization of the closed `Value` variant (lines 74-77)
cannot fail in the model. -/
def get_config_into_toml (log_dir : Bool) (env : Env) : Outcome Value × Env :=
  match get_config_file env with
  | .error _ => (.panicked "Failed to get config file", env)
  | .ok config_file =>
    if (env.files config_file).isSome then
      readAndParse config_file env
    else
      match Path.parent config_file with
      | none => (.err ⟨.notFound, .configDirNotFound⟩, env)
      | some _ =>
        readAndParse config_file
          (env.write config_file (.good (.table default_content)))

/-- `get_config` (src/config.rs:30-32). -/
def get_config (env : Env) : Outcome Value × Env :=
  get_config_into_toml true env

/-- `get_config_value` (src/config.rs:98-125). -/
def get_config_value (sec k : String) (env : Env) : Outcome Value × Env :=
  match get_config env with
  | (.panicked m, env1) => (.panicked m, env1)
  | (.err e, env1) => (.err e, env1)
  | (.ok config, env1) =>
    match config.get sec with
    | none => (.err ⟨.notFound, .sectionNotFound sec⟩, env1)
    | some sv =>
      match sv.as_table with
      | none => (.err ⟨.invalidData, .sectionNotATable sec⟩, env1)
      | some st =>
        match st.get k with
        | none => (.err ⟨.notFound, .keyNotFound k sec⟩, env1)
        | some v => (.ok v, env1)

/-- `save_config` (src/config.rs:178-184): serialize (total on the closed
variant) and overwrite the config file. -/
def save_config (config : Value) (env : Env) : Outcome Unit × Env :=
  match get_config_file env with
  | .error e => (.err e, env)
  | .ok p => (.ok (), env.write p (.good config))

/-- The in-place mutation through `get_mut`/`as_table_mut` at
src/config.rs:142-164: replace the value stored under `sec`. -/
def setSection (config : Value) (sec : String) (nv : Value) : Value :=
  match config with
  | .table t => .table (Table.insert t sec nv)
  | other => other

/-- `update_config_value` (src/config.rs:140-167). -/
def update_config_value (sec k : String) (v : Value) (env : Env) :
    Outcome Unit × Env :=
  match get_config_into_toml false env with
  | (.panicked m, env1) => (.panicked m, env1)
  | (.err e, env1) => (.err e, env1)
  | (.ok config, env1) =>
    match config.get sec with
    | none => (.err ⟨.notFound, .sectionNotFound sec⟩, env1)
    | some sv =>
      match sv.as_table with
      | none => (.err ⟨.invalidData, .sectionNotATable sec⟩, env1)
      | some st =>
        let write :=
          save_config (setSection config sec (.table (Table.insert st k v))) env1
        match st.get k with
        | some existing =>
          if existing = v then (.ok (), env1)
          else
            match write with
            | (.ok _, env2) => (.ok (), env2)
            | (.err e, env2) => (.err e, env2)
            | (.panicked m, env2) => (.panicked m, env2)
        | none =>
          match write with
          | (.ok _, env2) => (.ok (), env2)
          | (.err e, env2) => (.err e, env2)
          | (.panicked m, env2) => (.panicked m, env2)

/-! ### Basic lemmas about tables and paths -/

theorem Table.get_insert_self (t : Table) (k : String) (v : Value) :
    Table.get (Table.insert t k v) k = some v := by
  induction t with
  | nil => simp [Table.insert, Table.get]
  | cons hd tl ih =>
    obtain ⟨k0, v0⟩ := hd
    by_cases hk : k = k0
    · simp [Table.insert, hk, Table.get]
    · by_cases hlt : strLt k k0
      · simp [Table.insert, hk, hlt, Table.get]
      · simp [Table.insert, hk, hlt, Table.get, ih]

theorem Table.get_insert_ne (t : Table) (k : String) (v : Value) (k2 : String)
    (hne : k2 ≠ k) :
    Table.get (Table.insert t k v) k2 = Table.get t k2 := by
  induction t with
  | nil => simp [Table.insert, Table.get, hne]
  | cons hd tl ih =>
    obtain ⟨k0, v0⟩ := hd
    by_cases hk : k = k0
    · subst hk; simp [Table.insert, Table.get, hne]
    · by_cases hlt : strLt k k0
      · simp [Table.insert, hk, hlt, Table.get, hne]
      · simp [Table.insert, hk, hlt, Table.get, ih]

theorem Value.as_table_some {sv : Value} {st : Table} (h : sv.as_table = some st) :
    sv = .table st := by
  cases sv <;> simp [Value.as_table] at h <;> simp [h]

theorem Value.get_some_table {config sv : Value} {sec : String}
    (h : config.get sec = some sv) :
    ∃ t, config = .table t ∧ Table.get t sec = some sv := by
  cases config <;> simp [Value.get] at h
  case table t => exact ⟨t, rfl, h⟩

/-- The resolved path of the config file under home directory `h`. -/
def config_file_path (h : Path) : Path :=
  ((h.join ".config").join "gim").join "config.toml"

theorem config_file_path_ne_nil (h : Path) : config_file_path h ≠ [] := by
  simp [config_file_path, Path.join]

theorem parent_config_file_path (h : Path) :
    Path.parent (config_file_path h) ≠ none := by
  simp [Path.parent, config_file_path_ne_nil]

theorem get_config_file_of_home_none {env : Env} (hh : env.home = none) :
    get_config_file env = .error ⟨.notFound, .homeNotFound⟩ := by
  simp [get_config_file, config_dir, hh]

theorem get_config_file_of_home_some {env : Env} {h : Path} (hh : env.home = some h) :
    get_config_file env = .ok (config_file_path h) := by
  simp [get_config_file, config_dir, hh, config_file_path]

theorem Env.write_home (env : Env) (p : Path) (c : Content) :
    (env.write p c).home = env.home := rfl

theorem Env.write_files_self (env : Env) (p : Path) (c : Content) :
    (env.write p c).files p = some c := by
  simp [Env.write]

/-! ### Characterization of `load` (`get_config_into_toml`) -/

theorem load_of_home_none {env : Env} (b : Bool) (hh : env.home = none) :
    get_config_into_toml b env = (.panicked "Failed to get config file", env) := by
  simp [get_config_into_toml, get_config_file_of_home_none hh]

theorem load_eq {env : Env} {h : Path} (b : Bool) (hh : env.home = some h) :
    get_config_into_toml b env =
      match env.files (config_file_path h) with
      | some (.good v) => (.ok v, env)
      | some (.bad _) => (.err ⟨.invalidData, .parseError⟩, env)
      | none =>
        (.ok (.table default_content),
         env.write (config_file_path h) (.good (.table default_content)))
      := by
  rw [get_config_into_toml, get_config_file_of_home_some hh]
  cases hc : env.files (config_file_path h) with
  | none =>
    cases hpar : Path.parent (config_file_path h) with
    | none => exact absurd hpar (parent_config_file_path h)
    | some q =>
      simp [hc, hpar, readAndParse, Env.write_files_self]
  | some c =>
    cases c with
    | good v => simp [hc, readAndParse]
    | bad s => simp [hc, readAndParse]

/-- From a successful load: the home directory was found, is unchanged, and
the resulting filesystem holds the returned document at the config path. -/
theorem load_ok_inv {b : Bool} {env env1 : Env} {v : Value}
    (h : get_config_into_toml b env = (.ok v, env1)) :
    ∃ hp, env.home = some hp ∧ env1.home = some hp ∧
      env1.files (config_file_path hp) = some (.good v) := by
  cases hh : env.home with
  | none => rw [load_of_home_none b hh] at h; simp at h
  | some hp =>
    rw [load_eq b hh] at h
    refine ⟨hp, rfl, ?_⟩
    cases hc : env.files (config_file_path hp) with
    | none =>
      rw [hc] at h
      obtain ⟨h1, h2⟩ := Prod.mk.injEq .. ▸ h
      injection h1 with h1
      subst h2
      exact ⟨hh, by simp [Env.write_files_self, ← h1]⟩
    | some c =>
      cases c with
      | good w =>
        rw [hc] at h
        obtain ⟨h1, h2⟩ := Prod.mk.injEq .. ▸ h
        injection h1 with h1
        subst h2
        subst h1
        exact ⟨hh, hc⟩
      | bad s => rw [hc] at h; simp at h

/-- A second load with no external modification in between returns the same
document and does not touch the filesystem. -/
theorem load_load {b : Bool} (b2 : Bool) {env env1 : Env} {v : Value}
    (h : get_config_into_toml b env = (.ok v, env1)) :
    get_config_into_toml b2 env1 = (.ok v, env1) := by
  obtain ⟨hp, _, hh1, hf⟩ := load_ok_inv h
  rw [load_eq b2 hh1, hf]

/-! ### Characterization of the accessors -/

theorem get_config_value_of_load_ok {env env1 : Env} {config : Value}
    (sec k : String) (h : get_config env = (.ok config, env1)) :
    get_config_value sec k env =
      ((match config.get sec with
        | none => Outcome.err ⟨.notFound, .sectionNotFound sec⟩
        | some sv =>
          match sv.as_table with
          | none => .err ⟨.invalidData, .sectionNotATable sec⟩
          | some st =>
            match Table.get st k with
            | none => .err ⟨.notFound, .keyNotFound k sec⟩
            | some v => .ok v), env1) := by
  unfold get_config_value
  split
  case _ m env2 heq => rw [h] at heq; simp at heq
  case _ e env2 heq => rw [h] at heq; simp at heq
  case _ config2 env2 heq =>
    rw [h] at heq
    injection heq with h1 h2
    injection h1 with h1
    subst h1; subst h2
    cases hs : config.get sec with
    | none => simp [hs]
    | some sv =>
      cases ht : sv.as_table with
      | none => simp [hs, ht]
      | some st =>
        cases hk : Table.get st k with
        | none => simp [hs, ht, hk]
        | some v => simp [hs, ht, hk]

theorem get_config_value_of_load_err {env env1 : Env} {e : IOErr}
    (sec k : String) (h : get_config env = (.err e, env1)) :
    get_config_value sec k env = (.err e, env1) := by
  unfold get_config_value
  split
  case _ m env2 heq => rw [h] at heq; simp at heq
  case _ e2 env2 heq =>
    rw [h] at heq
    injection heq with h1 h2
    injection h1 with h1
    subst h1; subst h2
    rfl
  case _ config2 env2 heq => rw [h] at heq; simp at heq

theorem get_config_value_of_load_panic {env env1 : Env} {m : String}
    (sec k : String) (h : get_config env = (.panicked m, env1)) :
    get_config_value sec k env = (.panicked m, env1) := by
  unfold get_config_value
  split
  case _ m2 env2 heq =>
    rw [h] at heq
    injection heq with h1 h2
    injection h1 with h1
    subst h1; subst h2
    rfl
  case _ e env2 heq => rw [h] at heq; simp at heq
  case _ config2 env2 heq => rw [h] at heq; simp at heq

theorem save_config_of_home_some {env : Env} {hp : Path}
    (hh : env.home = some hp) (config : Value) :
    save_config config env =
      (.ok (), env.write (config_file_path hp) (.good config)) := by
  simp [save_config, get_config_file_of_home_some hh]

theorem update_config_value_of_load_ok {env env1 : Env} {config : Value}
    (sec k : String) (v : Value)
    (h : get_config_into_toml false env = (.ok config, env1)) :
    update_config_value sec k v env =
      match config.get sec with
      | none => (.err ⟨.notFound, .sectionNotFound sec⟩, env1)
      | some sv =>
        match sv.as_table with
        | none => (.err ⟨.invalidData, .sectionNotATable sec⟩, env1)
        | some st =>
          if Table.get st k = some v then (.ok (), env1)
          else
            match save_config
                (setSection config sec (.table (Table.insert st k v))) env1 with
            | (.ok _, env2) => (.ok (), env2)
            | (.err e, env2) => (.err e, env2)
            | (.panicked m, env2) => (.panicked m, env2) := by
  unfold update_config_value
  split
  case _ m env2 heq => rw [h] at heq; simp at heq
  case _ e env2 heq => rw [h] at heq; simp at heq
  case _ config2 env2 heq =>
    rw [h] at heq
    injection heq with h1 h2
    injection h1 with h1
    subst h1; subst h2
    cases hs : config.get sec with
    | none => simp [hs]
    | some sv =>
      cases ht : sv.as_table with
      | none => simp [hs, ht]
      | some st =>
        cases hk : Table.get st k with
        | none => simp [hs, ht, hk]
        | some existing =>
          by_cases hv : existing = v
          · subst hv; simp [hs, ht, hk]
          · simp [hs, ht, hk, hv]

/-! ### Claim theorems -/

/-- C1: the claim says a failed home-directory resolution is returned from
`load` to its immediate caller as the `HomeNotFound` error.  The code
instead panics: `get_config_file().expect("Failed to get config file")`
(src/config.rs:46) aborts rather than returning the error, contradicting
the function's own documentation ("The configuration as a TOML Value or an
error").  This theorem evaluates the code at the failing input: an
environment with no home directory makes `load` panic. -/
theorem load_panics_when_home_missing :
    get_config_into_toml true { home := none, files := fun _ => none } =
      (.panicked "Failed to get config file",
       { home := none, files := fun _ => none }) := rfl

/-- C3: a freshly bootstrapped document (built by `load` when the config
file is absent) contains exactly the default schema: section `update` with
`tried=0`, `max_try=5`, `last_try_day="2000-01-01"`,
`try_interval_days=30`, and section `ai` with `model=""`, `apikey=""`,
`url=""`, `language="English"` (tables listed in the key order of the
`BTreeMap`-backed TOML map). -/
theorem bootstrap_default_schema (b : Bool) (env : Env) (hp : Path)
    (hh : env.home = some hp)
    (habs : env.files (config_file_path hp) = none) :
    (get_config_into_toml b env).1 = .ok (.table default_content) ∧
    default_content =
      [("ai", .table [("apikey", .string ""), ("language", .string "English"),
                      ("model", .string ""), ("url", .string "")]),
       ("update", .table [("last_try_day", .string "2000-01-01"),
                          ("max_try", .integer 5), ("tried", .integer 0),
                          ("try_interval_days", .integer 30)])] := by
  refine ⟨?_, rfl⟩
  rw [load_eq b hh, habs]

/-- Witness for C3 at a concrete environment with an absent config file. -/
theorem bootstrap_default_schema_witness :
    (get_config_into_toml true
        { home := some ["home", "u"], files := fun _ => none }).1 =
      .ok (.table default_content) ∧
    default_content =
      [("ai", .table [("apikey", .string ""), ("language", .string "English"),
                      ("model", .string ""), ("url", .string "")]),
       ("update", .table [("last_try_day", .string "2000-01-01"),
                          ("max_try", .integer 5), ("tried", .integer 0),
                          ("try_interval_days", .integer 30)])] :=
  bootstrap_default_schema true _ ["home", "u"] rfl rfl

/-- C6: when the config file exists but its content does not parse (the
codec is modelled from the spec, under which the empty file is invalid
content), `load` fails with the `ParseError` (`InvalidData`) and leaves
the environment untouched: no re-bootstrap on invalid or empty content,
bootstrapping triggers only on absence. -/
theorem load_invalid_content_parse_error (b : Bool) (env : Env) (hp : Path)
    (s : String) (hh : env.home = some hp)
    (hfile : env.files (config_file_path hp) = some (.bad s)) :
    get_config_into_toml b env = (.err ⟨.invalidData, .parseError⟩, env) := by
  rw [load_eq b hh, hfile]

/-- Witness for C6 at a concrete environment whose config file is empty. -/
theorem load_invalid_content_parse_error_witness :
    get_config_into_toml true
        { home := some ["home", "u"],
          files := fun p =>
            if p = ["home", "u", ".config", "gim", "config.toml"]
            then some (.bad "") else none } =
      (.err ⟨.invalidData, .parseError⟩,
       { home := some ["home", "u"],
         files := fun p =>
           if p = ["home", "u", ".config", "gim", "config.toml"]
           then some (.bad "") else none }) :=
  load_invalid_content_parse_error true _ ["home", "u"] "" rfl rfl

/-- C7: calling `load` twice with no external modification in between
returns structurally equal documents both times, and the second call
performs no write: its resulting environment is exactly the environment
the first call produced (the file is created at most once). -/
theorem load_twice_idempotent (b b2 : Bool) (env env1 : Env) (v : Value)
    (h : get_config_into_toml b env = (.ok v, env1)) :
    get_config_into_toml b2 env1 = (.ok v, env1) :=
  load_load b2 h

/-- Witness for C7: bootstrap on first load, then reload. -/
theorem load_twice_idempotent_witness :
    get_config_into_toml false
        (get_config_into_toml true
          { home := some ["home", "u"], files := fun _ => none }).2 =
      (.ok (.table default_content),
       (get_config_into_toml true
         { home := some ["home", "u"], files := fun _ => none }).2) :=
  load_twice_idempotent true false
    { home := some ["home", "u"], files := fun _ => none }
    (get_config_into_toml true
      { home := some ["home", "u"], files := fun _ => none }).2
    (.table default_content)
    (by rfl)

/-- C8: `config_dir` computes exactly `<home>/.config/gim` and fails with
the `HomeNotFound` error precisely when the environment supplies no home
directory; the config file path is that directory joined with
`config.toml`. -/
theorem config_dir_resolution (env : Env) :
    (env.home = none →
      config_dir env = .error ⟨.notFound, .homeNotFound⟩ ∧
      get_config_file env = .error ⟨.notFound, .homeNotFound⟩) ∧
    (∀ hp, env.home = some hp →
      config_dir env = .ok ((hp.join ".config").join "gim") ∧
      get_config_file env =
        .ok (((hp.join ".config").join "gim").join "config.toml")) := by
  constructor
  · intro hh
    exact ⟨by simp [config_dir, hh], by simp [get_config_file, config_dir, hh]⟩
  · intro hp hh
    exact ⟨by simp [config_dir, hh], by simp [get_config_file, config_dir, hh]⟩

/-- Witness for C8 at a concrete home directory. -/
theorem config_dir_resolution_witness :
    config_dir { home := some ["home", "u"], files := fun _ => none } =
      .ok ((Path.join (Path.join ["home", "u"] ".config") "gim")) ∧
    get_config_file { home := some ["home", "u"], files := fun _ => none } =
      .ok (Path.join (Path.join (Path.join ["home", "u"] ".config") "gim")
            "config.toml") :=
  (config_dir_resolution _).2 ["home", "u"] rfl

/-- C10: every successfully resolved config file path has a parent
component, so the `"config directory not found"` branch of `load`
(src/config.rs:50-55) is unreachable: `load` never returns that error. -/
theorem config_parent_never_missing (env : Env) (p : Path) (b : Bool)
    (hp : get_config_file env = .ok p) :
    Path.parent p ≠ none ∧
    (get_config_into_toml b env).1 ≠ .err ⟨.notFound, .configDirNotFound⟩ := by
  cases hh : env.home with
  | none => rw [get_config_file_of_home_none hh] at hp; simp at hp
  | some h =>
    rw [get_config_file_of_home_some hh] at hp
    injection hp with hp
    subst hp
    refine ⟨parent_config_file_path h, ?_⟩
    rw [load_eq b hh]
    cases hc : env.files (config_file_path h) with
    | none => simp
    | some c => cases c <;> simp

/-- Witness for C10 at a concrete environment. -/
theorem config_parent_never_missing_witness :
    Path.parent ["home", "u", ".config", "gim", "config.toml"] ≠ none ∧
    (get_config_into_toml true
        { home := some ["home", "u"], files := fun _ => none }).1 ≠
      .err ⟨.notFound, .configDirNotFound⟩ :=
  config_parent_never_missing _ _ true rfl

/-- Errors of a successful-load `get_config_value` call are exactly the
three lookup errors. -/
theorem get_value_err_shape {sec k : String} {env env1 : Env} {config : Value}
    {e : IOErr} (hload : get_config env = (.ok config, env1))
    (h : (get_config_value sec k env).1 = .err e) :
    e = ⟨.notFound, .sectionNotFound sec⟩ ∨
    e = ⟨.invalidData, .sectionNotATable sec⟩ ∨
    e = ⟨.notFound, .keyNotFound k sec⟩ := by
  rw [get_config_value_of_load_ok sec k hload] at h
  cases hs : config.get sec with
  | none => simp [hs] at h; subst h; simp
  | some sv =>
    cases ht : sv.as_table with
    | none => simp [hs, ht] at h; subst h; simp
    | some st =>
      cases hk : Table.get st k with
      | none => simp [hs, ht, hk] at h; subst h; simp
      | some v0 => simp [hs, ht, hk] at h

/-- C4: with a successfully loaded document, `get_config_value` fails with
the `SectionNotFound` error exactly when the section is absent, with the
`SectionNotATable` error exactly when it is present but not a table, with
the `KeyNotFound` error exactly when the key is absent under the section,
and otherwise returns exactly the stored value (the code returns
`v.clone()`; in value semantics the copy equals the stored value and
aliasing has no observable content). -/
theorem get_value_characterization (sec k : String) (env env1 : Env)
    (config : Value) (h : get_config env = (.ok config, env1)) :
    ((get_config_value sec k env).1 = .err ⟨.notFound, .sectionNotFound sec⟩ ↔
      config.get sec = none) ∧
    ((get_config_value sec k env).1 = .err ⟨.invalidData, .sectionNotATable sec⟩ ↔
      ∃ sv, config.get sec = some sv ∧ sv.as_table = none) ∧
    ((get_config_value sec k env).1 = .err ⟨.notFound, .keyNotFound k sec⟩ ↔
      ∃ sv st, config.get sec = some sv ∧ sv.as_table = some st ∧
        Table.get st k = none) ∧
    (∀ v, (get_config_value sec k env).1 = .ok v ↔
      ∃ sv st, config.get sec = some sv ∧ sv.as_table = some st ∧
        Table.get st k = some v) := by
  rw [get_config_value_of_load_ok sec k h]
  cases hs : config.get sec with
  | none => simp
  | some sv =>
    cases ht : sv.as_table with
    | none => simp [ht]
    | some st =>
      cases hk : Table.get st k with
      | none => simp [ht, hk]
      | some v0 => simp [ht, hk, eq_comm]

/-- Witness for C4: a missing section on a default-content file. -/
theorem get_value_characterization_witness :
    (get_config_value "nope" "model"
        { home := some ["home", "u"],
          files := fun p =>
            if p = ["home", "u", ".config", "gim", "config.toml"]
            then some (.good (.table default_content)) else none }).1 =
      .err ⟨.notFound, .sectionNotFound "nope"⟩ :=
  ((get_value_characterization "nope" "model"
      { home := some ["home", "u"],
        files := fun p =>
          if p = ["home", "u", ".config", "gim", "config.toml"]
          then some (.good (.table default_content)) else none }
      _ (.table default_content) (by rfl)).1).mpr rfl

/-- C5: if the loaded document already holds the key with a structurally
equal value, `update_config_value` returns success with the state exactly
as the load left it: no save is performed, so repeated equal updates are
idempotent and leave the on-disk file unchanged. -/
theorem update_noop_on_equal (sec k : String) (v : Value) (env env1 : Env)
    (config sv : Value) (st : Table)
    (hload : get_config_into_toml false env = (.ok config, env1))
    (hs : config.get sec = some sv) (ht : sv.as_table = some st)
    (hk : Table.get st k = some v) :
    update_config_value sec k v env = (.ok (), env1) := by
  rw [update_config_value_of_load_ok sec k v hload]
  simp [hs, ht, hk]

/-- Witness for C5: updating `ai.language` to `"English"` on the default
document writes nothing. -/
theorem update_noop_on_equal_witness :
    update_config_value "ai" "language" (.string "English")
        { home := some ["home", "u"],
          files := fun p =>
            if p = ["home", "u", ".config", "gim", "config.toml"]
            then some (.good (.table default_content)) else none } =
      (.ok (),
       { home := some ["home", "u"],
         files := fun p =>
           if p = ["home", "u", ".config", "gim", "config.toml"]
           then some (.good (.table default_content)) else none }) :=
  update_noop_on_equal "ai" "language" (.string "English") _ _
    (.table default_content) (.table ai_table) ai_table (by rfl) rfl rfl rfl

/-- C9 counterexample: the claim says no lookup error is equal in kind to
any I/O error produced by the same operations.  But `get_config_value`
produces the `SectionNotATable` lookup error and the `ParseError` I/O
error both with kind `InvalidData` (`ErrorKind::InvalidData`), so a caller
inspecting the kind cannot tell them apart. -/
theorem lookup_error_kind_collision :
    (get_config_value "ai" "x"
        { home := some ["home", "u"],
          files := fun p =>
            if p = ["home", "u", ".config", "gim", "config.toml"]
            then some (.good (.table [("ai", .integer 1)])) else none }).1 =
      .err ⟨.invalidData, .sectionNotATable "ai"⟩ ∧
    (get_config_value "ai" "x"
        { home := some ["home", "u"],
          files := fun p =>
            if p = ["home", "u", ".config", "gim", "config.toml"]
            then some (.bad "not toml") else none }).1 =
      .err ⟨.invalidData, .parseError⟩ ∧
    (IOErr.mk .invalidData (.sectionNotATable "ai")).kind =
      (IOErr.mk .invalidData .parseError).kind :=
  ⟨rfl, rfl, rfl⟩

/-- C9 amended: every error returned by `get_config_value` is one of the
three lookup errors or the `ParseError`, and each failure class carries a
distinct message (`ErrMsg` constructor), so callers can distinguish lookup
failures from I/O failures by message — but not by kind: the lookup errors
reuse the kinds `NotFound` and `InvalidData` that the I/O errors also
use. -/
theorem get_value_error_classification (sec k : String) (env : Env) (e : IOErr)
    (h : (get_config_value sec k env).1 = .err e) :
    (e.msg = .sectionNotFound sec ∧ e.kind = .notFound) ∨
    (e.msg = .sectionNotATable sec ∧ e.kind = .invalidData) ∨
    (e.msg = .keyNotFound k sec ∧ e.kind = .notFound) ∨
    (e.msg = .parseError ∧ e.kind = .invalidData) := by
  cases hh : env.home with
  | none =>
    have hl : get_config env = (.panicked "Failed to get config file", env) :=
      load_of_home_none true hh
    rw [get_config_value_of_load_panic sec k hl] at h
    simp at h
  | some hp =>
    cases hc : env.files (config_file_path hp) with
    | none =>
      have hok : get_config env =
          (.ok (.table default_content),
           env.write (config_file_path hp) (.good (.table default_content))) := by
        show get_config_into_toml true env = _
        rw [load_eq true hh, hc]
      rcases get_value_err_shape hok h with h1 | h1 | h1 <;> subst h1 <;> simp
    | some c =>
      cases c with
      | good v =>
        have hok : get_config env = (.ok v, env) := by
          show get_config_into_toml true env = _
          rw [load_eq true hh, hc]
        rcases get_value_err_shape hok h with h1 | h1 | h1 <;> subst h1 <;> simp
      | bad s =>
        have hbad : get_config env = (.err ⟨.invalidData, .parseError⟩, env) := by
          show get_config_into_toml true env = _
          rw [load_eq true hh, hc]
        rw [get_config_value_of_load_err sec k hbad] at h
        simp at h
        subst h
        simp

/-- Witness for the amended C9 at a concrete missing-section lookup. -/
theorem get_value_error_classification_witness :
    ((IOErr.mk .notFound (.sectionNotFound "nope")).msg =
        .sectionNotFound "nope" ∧
      (IOErr.mk .notFound (.sectionNotFound "nope")).kind = .notFound) ∨
    ((IOErr.mk .notFound (.sectionNotFound "nope")).msg =
        .sectionNotATable "nope" ∧
      (IOErr.mk .notFound (.sectionNotFound "nope")).kind = .invalidData) ∨
    ((IOErr.mk .notFound (.sectionNotFound "nope")).msg =
        .keyNotFound "model" "nope" ∧
      (IOErr.mk .notFound (.sectionNotFound "nope")).kind = .notFound) ∨
    ((IOErr.mk .notFound (.sectionNotFound "nope")).msg = .parseError ∧
      (IOErr.mk .notFound (.sectionNotFound "nope")).kind = .invalidData) :=
  get_value_error_classification "nope" "model"
    { home := some ["home", "u"],
      files := fun p =>
        if p = ["home", "u", ".config", "gim", "config.toml"]
        then some (.good (.table default_content)) else none }
    ⟨.notFound, .sectionNotFound "nope"⟩ (by rfl)

/-- C2: a successful `update_config_value` followed by a fresh load yields
a document holding the new value under the given section and key, with
every other section/key pair unchanged from the previously loaded
document (the no-op path included, where the stored value already equals
the argument). -/
theorem update_persists_roundtrip (sec k : String) (v : Value)
    (env env1 env2 : Env) (config : Value)
    (hload : get_config_into_toml false env = (.ok config, env1))
    (hupd : update_config_value sec k v env = (.ok (), env2)) :
    ∃ config2,
      get_config_into_toml true env2 = (.ok config2, env2) ∧
      lookup2 config2 sec k = some v ∧
      ∀ s2 k2, s2 ≠ sec ∨ k2 ≠ k →
        lookup2 config2 s2 k2 = lookup2 config s2 k2 := by
  obtain ⟨hp, hh, hh1, hf1⟩ := load_ok_inv hload
  rw [update_config_value_of_load_ok sec k v hload] at hupd
  cases hs : config.get sec with
  | none => simp [hs] at hupd
  | some sv =>
    cases ht : sv.as_table with
    | none => simp [hs, ht] at hupd
    | some st =>
      simp only [hs, ht] at hupd
      have hsv := Value.as_table_some ht
      obtain ⟨t, hct, hgt⟩ := Value.get_some_table hs
      subst hct
      subst hsv
      by_cases hk : Table.get st k = some v
      · rw [if_pos hk] at hupd
        injection hupd with _ henv
        subst henv
        refine ⟨.table t, load_load true hload, ?_, fun s2 k2 _ => rfl⟩
        simp [lookup2, Value.get, hgt, hk]
      · rw [if_neg hk, save_config_of_home_some hh1] at hupd
        simp at hupd
        subst hupd
        refine ⟨setSection (.table t) sec (.table (Table.insert st k v)),
          ?_, ?_, ?_⟩
        · rw [load_eq true
            (show (env1.write (config_file_path hp)
              (.good (setSection (.table t) sec
                (.table (Table.insert st k v))))).home = some hp from hh1)]
          simp [Env.write_files_self]
        · simp [setSection, lookup2, Value.get, Table.get_insert_self]
        · intro s2 k2 hne
          rcases hne with hne | hne
          · simp [setSection, lookup2, Value.get,
              Table.get_insert_ne t sec (.table (Table.insert st k v)) s2 hne]
          · by_cases hs2 : s2 = sec
            · subst hs2
              simp [setSection, lookup2, Value.get, Table.get_insert_self,
                Table.get_insert_ne st k v k2 hne, hgt]
            · simp [setSection, lookup2, Value.get,
                Table.get_insert_ne t sec (.table (Table.insert st k v)) s2 hs2]

/-- Witness for C2: updating `ai.model` to `"gpt-4"` on the default
document, then reloading. -/
theorem update_persists_roundtrip_witness :
    ∃ config2,
      get_config_into_toml true
          (update_config_value "ai" "model" (.string "gpt-4")
            { home := some ["home", "u"],
              files := fun p =>
                if p = ["home", "u", ".config", "gim", "config.toml"]
                then some (.good (.table default_content)) else none }).2 =
        (.ok config2,
         (update_config_value "ai" "model" (.string "gpt-4")
           { home := some ["home", "u"],
             files := fun p =>
               if p = ["home", "u", ".config", "gim", "config.toml"]
               then some (.good (.table default_content)) else none }).2) ∧
      lookup2 config2 "ai" "model" = some (.string "gpt-4") ∧
      ∀ s2 k2, s2 ≠ "ai" ∨ k2 ≠ "model" →
        lookup2 config2 s2 k2 = lookup2 (.table default_content) s2 k2 :=
  update_persists_roundtrip "ai" "model" (.string "gpt-4")
    { home := some ["home", "u"],
      files := fun p =>
        if p = ["home", "u", ".config", "gim", "config.toml"]
        then some (.good (.table default_content)) else none }
    { home := some ["home", "u"],
      files := fun p =>
        if p = ["home", "u", ".config", "gim", "config.toml"]
        then some (.good (.table default_content)) else none }
    (update_config_value "ai" "model" (.string "gpt-4")
      { home := some ["home", "u"],
        files := fun p =>
          if p = ["home", "u", ".config", "gim", "config.toml"]
          then some (.good (.table default_content)) else none }).2
    (.table default_content) (by rfl) (by rfl)

end GimConfig
